import Mathlib

/-!
Verification of the data-preparation and simulation pipeline of the UAE
retail analytics dashboard (src/app.py).  The pandas frames are embedded as
lists of typed records following the data model of the specification
(section 3): numeric cells are rationals, nullable cells are `Option`
(with `none` standing for NaN/NaT), timestamps are integers (seconds),
dates are integers (day numbers), and every operation is translated from
the source functions named in the doc comments.
-/

namespace RetailApp

/-! ## Generic helpers: pandas reductions on embedded columns -/

/-- Insertion of a rational into a sorted list (helper for `sortRats`). -/
def insertRat (x : ℚ) : List ℚ → List ℚ
  | [] => [x]
  | y :: ys => if x ≤ y then x :: y :: ys else y :: insertRat x ys

/-- Insertion sort on rationals (kernel-computable stand-in for the sort
performed inside pandas `Series.median`). -/
def sortRats : List ℚ → List ℚ
  | [] => []
  | x :: xs => insertRat x (sortRats xs)

/-- Pandas `Series.median` over the non-null values of a column: NaN (here
`none`) when there is no value, otherwise the middle element of the sorted
values, or the mean of the two middle elements for an even count. -/
def medianRats (l : List ℚ) : Option ℚ :=
  if l = [] then none
  else
    let s := sortRats l
    let n := s.length
    if n % 2 = 1 then some (s.getD (n / 2) 0)
    else some ((s.getD (n / 2 - 1) 0 + s.getD (n / 2) 0) / 2)

/-- Pandas `Series.mean` on a nullable column: NaN values are skipped, and
the mean of an empty selection is NaN (`none`). -/
def meanOpt (l : List (Option ℚ)) : Option ℚ :=
  let vs := l.filterMap id
  if vs = [] then none else some (vs.sum / (vs.length : ℚ))

/-- Pandas `Series.mean` on a column with no nulls (only used by the code
behind explicit emptiness guards). -/
def meanRats (l : List ℚ) : ℚ := l.sum / (l.length : ℚ)

/-- Maximum of a list of integers (pandas `Series.max` over non-null values;
the caller handles the empty case). -/
def maxInt (l : List Int) : Option Int :=
  match l with
  | [] => none
  | x :: xs => some (xs.foldl max x)

/-- Minimum of a list of integers. -/
def minInt (l : List Int) : Option Int :=
  match l with
  | [] => none
  | x :: xs => some (xs.foldl min x)

/-! ## Static tables (src/app.py lines 1130-1214) -/

/-- City name standardization mapping, src/app.py lines 1178-1199
(`CITY_MAPPING`).  Keys are the dirty spellings, values the standard name. -/
def CITY_MAPPING : List (String × String) :=
  [("dubai", "Dubai"), ("DUBAI", "Dubai"), ("Dubayy", "Dubai"), ("DXB", "Dubai"),
   ("abu dhabi", "Abu Dhabi"), ("ABU DHABI", "Abu Dhabi"), ("AbuDhabi", "Abu Dhabi"),
   ("AD", "Abu Dhabi"), ("Abudhabi", "Abu Dhabi"),
   ("sharjah", "Sharjah"), ("SHARJAH", "Sharjah"), ("Shj", "Sharjah"),
   ("Sharijah", "Sharjah"), ("Al Sharjah", "Sharjah")]

/-- Standard city names, src/app.py line 1202 (`STANDARD_CITIES`). -/
def STANDARD_CITIES : List String := ["Dubai", "Abu Dhabi", "Sharjah"]

/-- Expected products schema, src/app.py lines 1131-1139
(`EXPECTED_COLUMNS["products"]`). -/
def EXPECTED_PRODUCTS : List String :=
  ["product_id", "category", "brand", "base_price_aed", "unit_cost_aed",
   "tax_rate", "launch_flag"]

/-- Pandas `Series.replace(mapping)` on one cell: a value that is a key of the
mapping is replaced, any other value is kept as is. -/
def mapReplace (m : List (String × String)) (c : String) : String :=
  match m.lookup c with
  | some v => v
  | none => c

/-- The `city_clean` derivation of the load/report path, src/app.py lines
1822-1824: `replace(CITY_MAPPING)` followed by `fillna(city)` (the fillna is a
no-op on a total string column, since replace never produces a null). -/
def cityCleanLoad (c : String) : String := mapReplace CITY_MAPPING c

/-- The city fix of the apply-fixes path, src/app.py lines 3976-3979:
`replace(CITY_MAPPING)` then default every non-standard value to "Dubai". -/
def fixCity (c : String) : String :=
  let c1 := mapReplace CITY_MAPPING c
  if c1 ∈ STANDARD_CITIES then c1 else "Dubai"

/-! ## Column-name normalization and schema validation -/

/-- Python `str.lower` on one character (the column names in play are
ASCII, so only the ASCII range is lowered). -/
def lowerChar (c : Char) : Char :=
  if 65 ≤ c.toNat ∧ c.toNat ≤ 90 then Char.ofNat (c.toNat + 32) else c

/-- Python `str.lower` (kernel-computable character-list embedding). -/
def toLowerStr (s : String) : String := String.mk (s.data.map lowerChar)

/-- Python `str.strip`: drop leading and trailing whitespace. -/
def stripStr (s : String) : String :=
  String.mk (((s.data.dropWhile Char.isWhitespace).reverse.dropWhile
    Char.isWhitespace).reverse)

/-- Pandas `str.replace(" ", "_")` on a single-character pattern. -/
def replaceSpace (s : String) : String :=
  String.mk (s.data.map (fun c => if c = Char.ofNat 32 then Char.ofNat 95 else c))

/-- Column normalization of the loader, src/app.py lines 1782-1786:
`str.lower().str.strip().str.replace(" ", "_")`. -/
def normalizeLoadCol (s : String) : String :=
  replaceSpace (stripStr (toLowerStr s))

/-- Column normalization inside `validate_dataframe`, src/app.py line 1232:
`str.lower().str.strip()` (no space replacement there). -/
def normalizeValidateCol (s : String) : String := stripStr (toLowerStr s)

/-- Schema names known to `validate_dataframe`, src/app.py lines 1130-1175. -/
def SCHEMA_NAMES : List String := ["products", "stores", "sales", "inventory", "campaigns"]

/-- Expected column list per schema (only the products entry is spelled out;
the claims under verification only exercise the products schema). -/
def expectedColumnsFor (schema : String) : List String :=
  if schema = "products" then EXPECTED_PRODUCTS else []

/-- Embedding of `validate_dataframe` (src/app.py lines 1217-1239) at the
products schema: lowercase and strip the actual column names, compute the
missing and extra sets, and report validity as "no expected column missing". -/
def validate_dataframe (schema : String) (cols : List String) :
    Bool × List String × List String :=
  if schema ∈ SCHEMA_NAMES then
    let expected := expectedColumnsFor schema
    let actual := cols.map normalizeValidateCol
    let missing := expected.filter (fun c => ¬ c ∈ actual)
    let extra := actual.filter (fun c => ¬ c ∈ expected)
    (missing.isEmpty, missing, extra)
  else (false, [], [])

/-! ## The data model (specification section 3, src/app.py frames) -/

/-- One row of the enriched sales frame produced by
`load_and_process_data` / `generate_sample_data`. -/
structure Sale where
  order_id : String
  order_time : Option Int
  product_id : String
  store_id : String
  qty : ℚ
  selling_price : ℚ
  discount_pct : Option ℚ
  payment_status : String
  return_flag : ℚ
  revenue : ℚ
  category : String
  brand : String
  unit_cost : Option ℚ
  base_price : ℚ
  city : String
  channel : String
  city_clean : String
  deriving DecidableEq, Repr, Inhabited

/-- One row of the enriched inventory frame. -/
structure InvRow where
  snapshot_date : Option Int
  product_id : String
  store_id : String
  stock_on_hand : ℚ
  reorder_point : ℚ
  lead_time_days : ℚ
  stock_status : String
  is_negative : Bool
  is_extreme : Bool
  category : String
  brand : String
  city : String
  channel : String
  city_clean : String
  deriving DecidableEq, Repr, Inhabited

/-- One row of the products frame. -/
structure Product where
  product_id : String
  category : String
  brand : String
  base_price : ℚ
  unit_cost : Option ℚ
  tax_rate : ℚ
  launch_flag : String
  deriving DecidableEq, Repr, Inhabited

/-- One row of the stores frame. -/
structure Store where
  store_id : String
  city : String
  channel : String
  fulfillment_type : String
  city_clean : String
  deriving DecidableEq, Repr, Inhabited

/-- One row of the campaigns frame. -/
structure Campaign where
  campaign_id : String
  start_date : Option Int
  end_date : Option Int
  city : String
  channel : String
  category : String
  discount_pct : ℚ
  promo_budget : ℚ
  duration_days : ℚ
  is_active : Bool
  deriving DecidableEq, Repr, Inhabited

/-- The four frames handed to the apply-fixes cleaner,
src/app.py line 3937 (`render_apply_fixes` arguments). -/
structure Tables where
  products : List Product
  stores : List Store
  sales : List Sale
  inventory : List InvRow
  deriving DecidableEq, Repr, Inhabited

/-! ## The apply-fixes cleaner (src/app.py lines 3964-4030)

Fix 1 standardizes store cities, fix 2 drops duplicate order ids keeping the
first occurrence, fix 3 drops rows with an unparseable timestamp, fix 4 zeroes
negative stock, fix 5 caps stock at 5000, and fix 6 imputes missing discounts
with 0 and missing unit costs with the per-category median cost ratio. -/

/-- Fix 1, src/app.py lines 3975-3979: apply `fixCity` to the city column of
the stores frame. -/
def fixCities (stores : List Store) : List Store :=
  stores.map (fun s => { s with city := fixCity s.city })

/-- Worker of `dedupSales`: keep a row only when its order id was not seen
before (pandas `drop_duplicates(subset="order_id", keep="first")`). -/
def dedupGo (seen : List String) : List Sale → List Sale
  | [] => []
  | s :: rest =>
    if s.order_id ∈ seen then dedupGo seen rest
    else s :: dedupGo (s.order_id :: seen) rest

/-- Fix 2, src/app.py line 3985: `drop_duplicates(subset="order_id",
keep="first")` on the sales frame. -/
def dedupSales (sales : List Sale) : List Sale := dedupGo [] sales

/-- Fix 3, src/app.py line 3992: keep only the rows whose `order_time`
parsed (`clean_sales[clean_sales["order_time"].notna()]`). -/
def dropInvalidTs (sales : List Sale) : List Sale :=
  sales.filter (fun s => s.order_time ≠ none)

/-- Fix 4, src/app.py line 3999: set negative `stock_on_hand` to 0. -/
def fixNegStock (inv : List InvRow) : List InvRow :=
  inv.map (fun r => if r.stock_on_hand < 0 then { r with stock_on_hand := 0 } else r)

/-- Fix 5, src/app.py line 4005: cap `stock_on_hand` strictly above 5000
at 5000. -/
def capStock (inv : List InvRow) : List InvRow :=
  inv.map (fun r => if r.stock_on_hand > 5000 then { r with stock_on_hand := 5000 } else r)

/-- First half of fix 6, src/app.py line 4012: `discount_pct.fillna(0)`. -/
def fillDiscount (sales : List Sale) : List Sale :=
  sales.map (fun s => { s with discount_pct := some (s.discount_pct.getD 0) })

/-- Cost ratio of one product row, src/app.py line 4018
(`unit_cost_aed / base_price_aed`, NaN when the cost is missing). -/
def costRatioOf (p : Product) : Option ℚ :=
  p.unit_cost.map (fun u => u / p.base_price)

/-- The non-null cost ratios of a category, the values over which
`groupby("category")["cost_ratio"].median()` computes the group median
(pandas median skips NaN entries). -/
def ratiosOf (ps : List Product) (c : String) : List ℚ :=
  (ps.filter (fun p => p.category = c)).filterMap costRatioOf

/-- The entry that `category_medians.get(cat, 0.5)` yields, src/app.py lines
4019 and 4024: a category that appears in the frame is a groupby key, so
`get` returns its median (which is NaN, here `none`, when the group has no
non-null ratio); only an absent key falls back to 0.5. -/
def categoryMedianGet (ps : List Product) (c : String) : Option ℚ :=
  if c ∈ ps.map Product.category then medianRats (ratiosOf ps c)
  else some (1 / 2)

/-- The per-row assignment of the cost imputation loop, src/app.py lines
4021-4025: rows with a missing cost receive `base_price * ratio` (NaN stays
NaN), other rows are untouched. -/
def imputeCostRow (ps : List Product) (p : Product) : Product :=
  if p.unit_cost = none then
    { p with unit_cost := (categoryMedianGet ps p.category).map (fun r => p.base_price * r) }
  else p

/-- Second half of fix 6, src/app.py lines 4015-4027: the whole imputation is
guarded by `if clean_products["unit_cost_aed"].isna().any()`. -/
def imputeCosts (ps : List Product) : List Product :=
  if ps.any (fun p => p.unit_cost = none) then ps.map (imputeCostRow ps) else ps

/-- The full apply-fixes cycle with every fix selected, src/app.py lines
3964-4030, in source order: cities on the stores frame; dedup, timestamp
filter and discount fill on the sales frame; negative-stock zeroing then
extreme-stock capping on the inventory frame; cost imputation on the products
frame. -/
def clean (t : Tables) : Tables :=
  { products := imputeCosts t.products
    stores := fixCities t.stores
    sales := fillDiscount (dropInvalidTs (dedupSales t.sales))
    inventory := capStock (fixNegStock t.inventory) }

/-! ## Shared sales-frame reductions -/

/-- The rows whose timestamp parsed
(`sales_df[sales_df["order_time"].notna()]`, used at src/app.py lines
1969, 6219 and 7096). -/
def validSales (sales : List Sale) : List Sale :=
  sales.filter (fun s => s.order_time ≠ none)

/-- The parsed timestamps of a sales frame. -/
def orderTimesOf (l : List Sale) : List Int := l.filterMap Sale.order_time

/-- The observed date range in whole days:
`(order_time.max() - order_time.min()).days` (timedelta.days is the floor
of the span in days; the span is non-negative, so integer division agrees). -/
def dateRangeDays (l : List Sale) : Int :=
  match maxInt (orderTimesOf l), minInt (orderTimesOf l) with
  | some hi, some lo => (hi - lo) / 86400
  | _, _ => 0

/-- Total quantity sold of one product
(`valid_sales.groupby("product_id")["qty"].sum()` read at one key). -/
def totalQtySold (l : List Sale) (pid : String) : ℚ :=
  ((l.filter (fun s => s.product_id = pid)).map Sale.qty).sum

/-! ## KPI engine (`calculate_kpi_metrics`, src/app.py lines 1955-2067) -/

/-- The flat mapping of named metrics that `calculate_kpi_metrics` returns.
The two unguarded pandas means keep their possibly-NaN type `Option`;
every other numeric metric is guarded in the source and stays rational. -/
structure KpiMetrics where
  total_revenue : ℚ
  paid_revenue : ℚ
  daily_avg_revenue : ℚ
  avg_order_value : ℚ
  total_orders : ℚ
  total_qty : ℚ
  daily_avg_orders : ℚ
  avg_qty_per_order : ℚ
  refund_rate : ℚ
  return_rate : ℚ
  avg_discount : Option ℚ
  discounted_orders_pct : ℚ
  total_stock : ℚ
  low_stock_count : ℚ
  healthy_stock_count : ℚ
  stock_health_pct : ℚ
  negative_stock_count : ℚ
  extreme_stock_count : ℚ
  active_campaigns : ℚ
  total_campaign_budget : ℚ
  avg_campaign_discount : Option ℚ
  total_products : ℚ
  new_products : ℚ
  top_category : String
  deriving DecidableEq, Inhabited

/-- Pandas `Series.idxmax` over (key, value) pairs: the first key holding the
maximal value (helper for the top-category metric). -/
def idxmaxGo : List (String × ℚ) → String × ℚ → String
  | [], acc => acc.1
  | (c, v) :: rest, acc =>
    if v > acc.2 then idxmaxGo rest (c, v) else idxmaxGo rest acc

/-- The category revenue table `valid_sales.groupby("category")["revenue"]
.sum()` (src/app.py line 2019); groupby keys come out sorted ascending. -/
def categoryRevenue (valid : List Sale) : List (String × ℚ) :=
  let cats := ((valid.map Sale.category).dedup).mergeSort (fun a b => a ≤ b)
  cats.map (fun c => (c, ((valid.filter (fun s => s.category = c)).map Sale.revenue).sum))

/-- The `top_category` metric, src/app.py lines 2019-2020: `idxmax` of the
category revenue when some category exists, the string "N/A" otherwise. -/
def topCategory (valid : List Sale) : String :=
  match categoryRevenue valid with
  | [] => "N/A"
  | e :: rest => idxmaxGo rest e

/-- Embedding of `calculate_kpi_metrics` (src/app.py lines 1955-2067). -/
def calculate_kpi_metrics (sales : List Sale) (inventory : List InvRow)
    (products : List Product) (campaigns : List Campaign) : KpiMetrics :=
  let valid := validSales sales
  let total_revenue := (valid.map Sale.revenue).sum
  let total_orders : ℚ := (((valid.map Sale.order_id).dedup).length : ℚ)
  let total_qty := (valid.map Sale.qty).sum
  let avg_order_value := if total_orders > 0 then total_revenue / total_orders else 0
  let avg_qty_per_order := if total_orders > 0 then total_qty / total_orders else 0
  let paid := valid.filter (fun s => s.payment_status = "Paid")
  let paid_revenue := (paid.map Sale.revenue).sum
  let refund_rate :=
    if valid.length > 0 then
      ((valid.countP (fun s => s.payment_status = "Refunded")) : ℚ) / (valid.length : ℚ) * 100
    else 0
  let return_rate := if paid.length > 0 then meanRats (paid.map Sale.return_flag) * 100 else 0
  let avg_discount := meanOpt (valid.map Sale.discount_pct)
  let discounted_orders_pct :=
    if valid.length > 0 then
      ((valid.countP (fun s => match s.discount_pct with
        | some d => decide (d > 0)
        | none => false)) : ℚ) / (valid.length : ℚ) * 100
    else 0
  let latestDate := maxInt (inventory.filterMap InvRow.snapshot_date)
  let latest : List InvRow := match latestDate with
    | none => []
    | some d => inventory.filter (fun r => r.snapshot_date = some d)
  let total_stock := (latest.map InvRow.stock_on_hand).sum
  let low_stock_count : ℚ :=
    ((latest.countP (fun r => r.stock_status = "Critical" ∨ r.stock_status = "Low")) : ℚ)
  let healthy_stock_count : ℚ := ((latest.countP (fun r => r.stock_status = "Healthy")) : ℚ)
  let stock_health_pct :=
    if latest.length > 0 then healthy_stock_count / (latest.length : ℚ) * 100 else 0
  let negative_stock_count : ℚ := ((latest.countP InvRow.is_negative) : ℚ)
  let extreme_stock_count : ℚ := ((latest.countP InvRow.is_extreme) : ℚ)
  let active_campaigns : ℚ := ((campaigns.countP Campaign.is_active) : ℚ)
  let total_campaign_budget := (campaigns.map Campaign.promo_budget).sum
  let avg_campaign_discount := meanOpt (campaigns.map (fun c => some c.discount_pct))
  let total_products : ℚ := ((products.length) : ℚ)
  let new_products : ℚ := ((products.countP (fun p => p.launch_flag = "New")) : ℚ)
  let top_category := topCategory valid
  let date_range := dateRangeDays valid
  let daily_avg_revenue :=
    if valid.length > 0 then
      (if date_range > 0 then total_revenue / ((date_range : ℚ)) else total_revenue)
    else 0
  let daily_avg_orders :=
    if valid.length > 0 then
      (if date_range > 0 then total_orders / ((date_range : ℚ)) else total_orders)
    else 0
  { total_revenue := total_revenue, paid_revenue := paid_revenue,
    daily_avg_revenue := daily_avg_revenue, avg_order_value := avg_order_value,
    total_orders := total_orders, total_qty := total_qty,
    daily_avg_orders := daily_avg_orders, avg_qty_per_order := avg_qty_per_order,
    refund_rate := refund_rate, return_rate := return_rate,
    avg_discount := avg_discount, discounted_orders_pct := discounted_orders_pct,
    total_stock := total_stock, low_stock_count := low_stock_count,
    healthy_stock_count := healthy_stock_count, stock_health_pct := stock_health_pct,
    negative_stock_count := negative_stock_count, extreme_stock_count := extreme_stock_count,
    active_campaigns := active_campaigns, total_campaign_budget := total_campaign_budget,
    avg_campaign_discount := avg_campaign_discount, total_products := total_products,
    new_products := new_products, top_category := top_category }

/-! ## Promotion simulator (`run_promotion_simulation`, src/app.py lines 7083-7226) -/

/-- The scenario parameters handed to the simulator. -/
structure SimParams where
  city : String
  channel : String
  category : String
  discount_pct : ℚ
  duration_days : ℚ
  lift_multiplier : ℚ
  budget : ℚ
  deriving DecidableEq, Repr, Inhabited

/-- Targeting filter of the simulator, src/app.py lines 7096-7108: valid
sales narrowed by city, channel and category whenever the parameter is a
non-empty value other than "All". -/
def simFiltered (sales : List Sale) (p : SimParams) : List Sale :=
  let f0 := validSales sales
  let f1 := if p.city ≠ "" ∧ p.city ≠ "All"
    then f0.filter (fun s => s.city_clean = p.city) else f0
  let f2 := if p.channel ≠ "" ∧ p.channel ≠ "All"
    then f1.filter (fun s => s.channel = p.channel) else f1
  if p.category ≠ "" ∧ p.category ≠ "All"
    then f2.filter (fun s => s.category = p.category) else f2

/-- The returned simulation results (src/app.py lines 7187-7226). -/
structure SimResults where
  baseline_daily_revenue : ℚ
  baseline_daily_units : ℚ
  baseline_daily_orders : ℚ
  baseline_avg_price : ℚ
  baseline_total_revenue : ℚ
  baseline_total_units : ℚ
  baseline_total_orders : ℚ
  baseline_margin : ℚ
  promo_price : ℚ
  promo_daily_revenue : ℚ
  promo_daily_units : ℚ
  promo_total_revenue : ℚ
  promo_total_units : ℚ
  promo_total_orders : ℚ
  promo_margin : ℚ
  incremental_revenue : ℚ
  incremental_units : ℚ
  incremental_orders : ℚ
  true_incremental_revenue : ℚ
  true_incremental_units : ℚ
  margin_impact : ℚ
  roi : ℚ
  roi_margin : ℚ
  budget : ℚ
  avg_unit_cost : ℚ
  revenue_per_discount_pct : ℚ
  deriving DecidableEq, Inhabited

/-- Embedding of `run_promotion_simulation` (src/app.py lines 7083-7226).
The unused local `baseline_avg_discount` of line 7119 is omitted; it is
dead in the source (never returned nor read). -/
def run_promotion_simulation (sales : List Sale) (p : SimParams) : SimResults :=
  let fs := simFiltered sales p
  let date_range : ℚ := max 1 ((dateRangeDays fs : ℚ))
  let baseline_daily_revenue := if fs.length > 0 then (fs.map Sale.revenue).sum / date_range else 0
  let baseline_daily_units := if fs.length > 0 then (fs.map Sale.qty).sum / date_range else 0
  let baseline_daily_orders :=
    if fs.length > 0 then (((fs.map Sale.order_id).dedup).length : ℚ) / date_range else 0
  let baseline_avg_price := if fs.length > 0 then meanRats (fs.map Sale.selling_price) else 0
  let avg_unit_cost := match meanOpt (fs.map Sale.unit_cost) with
    | some v => v
    | none => baseline_avg_price * (55 / 100)
  let promo_price := baseline_avg_price * (1 - p.discount_pct / 100)
  let promo_daily_units := baseline_daily_units * p.lift_multiplier
  let promo_daily_orders := baseline_daily_orders * p.lift_multiplier
  let promo_daily_revenue := promo_daily_units * promo_price
  let promo_total_revenue := promo_daily_revenue * p.duration_days
  let promo_total_units := promo_daily_units * p.duration_days
  let promo_total_orders := promo_daily_orders * p.duration_days
  let baseline_total_revenue := baseline_daily_revenue * p.duration_days
  let baseline_total_units := baseline_daily_units * p.duration_days
  let baseline_total_orders := baseline_daily_orders * p.duration_days
  let incremental_revenue := promo_total_revenue - baseline_total_revenue
  let incremental_units := promo_total_units - baseline_total_units
  let incremental_orders := promo_total_orders - baseline_total_orders
  let baseline_margin := (baseline_avg_price - avg_unit_cost) * baseline_total_units
  let promo_margin := (promo_price - avg_unit_cost) * promo_total_units
  let margin_impact := promo_margin - baseline_margin - p.budget
  let roi := if p.budget > 0 then (incremental_revenue - p.budget) / p.budget * 100 else 0
  let roi_margin := if p.budget > 0 then margin_impact / p.budget * 100 else 0
  let revenue_per_discount_pct :=
    if p.discount_pct > 0 then incremental_revenue / p.discount_pct else 0
  let true_incremental_revenue := incremental_revenue * (1 - 15 / 100)
  let true_incremental_units := incremental_units * (1 - 15 / 100)
  { baseline_daily_revenue := baseline_daily_revenue,
    baseline_daily_units := baseline_daily_units,
    baseline_daily_orders := baseline_daily_orders,
    baseline_avg_price := baseline_avg_price,
    baseline_total_revenue := baseline_total_revenue,
    baseline_total_units := baseline_total_units,
    baseline_total_orders := baseline_total_orders,
    baseline_margin := baseline_margin,
    promo_price := promo_price,
    promo_daily_revenue := promo_daily_revenue,
    promo_daily_units := promo_daily_units,
    promo_total_revenue := promo_total_revenue,
    promo_total_units := promo_total_units,
    promo_total_orders := promo_total_orders,
    promo_margin := promo_margin,
    incremental_revenue := incremental_revenue,
    incremental_units := incremental_units,
    incremental_orders := incremental_orders,
    true_incremental_revenue := true_incremental_revenue,
    true_incremental_units := true_incremental_units,
    margin_impact := margin_impact,
    roi := roi,
    roi_margin := roi_margin,
    budget := p.budget,
    avg_unit_cost := avg_unit_cost,
    revenue_per_discount_pct := revenue_per_discount_pct }

/-! ## Reorder calculator (`render_reorder_analysis`, src/app.py lines 6186-6245) -/

/-- The per-product velocity table, src/app.py lines 6219-6230:
`groupby("product_id")["qty"].sum() / date_range` when there are valid sales
spanning a positive number of days, the empty table otherwise. -/
def product_velocity (sales : List Sale) : List (String × ℚ) :=
  let valid := validSales sales
  if valid.length > 0 then
    let range := dateRangeDays valid
    if range > 0 then
      ((valid.map Sale.product_id).dedup).map
        (fun pid => (pid, totalQtySold valid pid / ((range : ℚ))))
    else []
  else []

/-- One row of the reorder frame built at src/app.py lines 6233-6245. -/
structure ReorderRow where
  row : InvRow
  daily_velocity : ℚ
  safety_stock : ℚ
  cycle_demand : ℚ
  lead_time_demand : ℚ
  reorder_qty : ℚ
  deriving DecidableEq, Repr, Inhabited

/-- Embedding of the reorder computation, src/app.py lines 6219-6245: left
merge of the filtered inventory with the velocity table, `fillna(0)` on the
velocity, then the three demand components and
`(... - stock_on_hand).clip(lower=0)`. -/
def render_reorder_rows (sales : List Sale) (inv : List InvRow)
    (safety_days cycle_days : ℚ) : List ReorderRow :=
  let vel := product_velocity sales
  inv.map (fun r =>
    let v := ((vel.find? (fun e => e.1 = r.product_id)).map Prod.snd).getD 0
    { row := r
      daily_velocity := v
      safety_stock := v * safety_days
      cycle_demand := v * cycle_days
      lead_time_demand := v * r.lead_time_days
      reorder_qty := max 0 (v * safety_days + v * cycle_days + v * r.lead_time_days - r.stock_on_hand) })

/-- The daily velocity as the specification states it (section 4.5): total
quantity sold of the product over the observed days, and 0 when there is no
valid sales history to divide by. -/
def dailyVelocitySpec (sales : List Sale) (pid : String) : ℚ :=
  let valid := validSales sales
  if valid.length > 0 ∧ dateRangeDays valid > 0 then
    totalQtySold valid pid / ((dateRangeDays valid : ℚ))
  else 0

/-! ## Synthetic data generator (`generate_sample_data`, src/app.py lines 1343-1738)

The function seeds the Mersenne-Twister and numpy generators with 42 (lines
1365-1366) and then interleaves draws from them.  The embedding abstracts
both seeded streams as one parameter `rng : Nat → Nat`, read at distinct
positions: seeding with a fixed seed fixes the whole stream, so two
invocations with seed 42 share the same `rng`.  Weighted choices, sampling
without replacement and the final shuffle are likewise modelled as
stream-determined selections (documented per definition), and the rounding
of prices to two decimals is dropped.  The second, seed-independent input of
the source is the wall clock: `TODAY = datetime.now().replace(hour=0, ...)`
at line 1376, embedded as the day number `today`.  Timestamps are seconds,
`today` midnight being `today * 86400`. -/

/-- Left pad with zeros, Python `str.zfill`. -/
def zfill (n : Nat) (s : String) : String :=
  String.mk (List.replicate (n - s.length) (Char.ofNat 48)) ++ s

/-- Structural map-with-index (kernel-friendly replacement for the frame
row-indexing used by the dirty-data injection passes). -/
def imapGo (f : Nat → α → β) : Nat → List α → List β
  | _, [] => []
  | i, x :: xs => f i x :: imapGo f (i + 1) xs

/-- Map with the row position. -/
def imap (f : Nat → α → β) (l : List α) : List β := imapGo f 0 l

/-- Generator configuration, src/app.py lines 1371-1374 and 1388-1413. -/
def NUM_PRODUCTS : Nat := 300
/-- Number of sales rows drawn, src/app.py line 1373. -/
def NUM_SALES : Nat := 35000
/-- Cities of the generator, src/app.py line 1389. -/
def GEN_CITIES : List String := ["Dubai", "Abu Dhabi", "Sharjah"]
/-- Channels, src/app.py line 1390. -/
def GEN_CHANNELS : List String := ["App", "Web", "Marketplace"]
/-- Fulfillment types, src/app.py line 1391. -/
def GEN_FULFILLMENT : List String := ["Own", "3PL"]
/-- Categories, src/app.py line 1395. -/
def GEN_CATEGORIES : List String :=
  ["Electronics", "Fashion", "Grocery", "Home & Garden", "Beauty", "Sports"]

/-- Brands per category, src/app.py lines 1397-1404. -/
def GEN_BRANDS (c : String) : List String :=
  if c = "Electronics" then ["Samsung", "Apple", "Sony", "LG", "Huawei", "Lenovo", "Dell", "HP"]
  else if c = "Fashion" then ["Zara", "H&M", "Nike", "Adidas", "Puma", "Levis", "Gap", "Uniqlo"]
  else if c = "Grocery" then ["Almarai", "Nestle", "Kelloggs", "Heinz", "Lipton", "Masafi", "Al Ain"]
  else if c = "Home & Garden" then ["IKEA", "HomeBox", "PanEmirates", "Danube", "ACE", "Pottery Barn"]
  else if c = "Beauty" then ["Loreal", "Maybelline", "MAC", "Nivea", "Dove", "Neutrogena", "Olay"]
  else ["Nike", "Adidas", "Puma", "UnderArmour", "Reebok", "Decathlon", "Skechers"]

/-- Price range per category, src/app.py lines 1406-1413. -/
def GEN_PRICE_RANGE (c : String) : Nat × Nat :=
  if c = "Electronics" then (100, 5000)
  else if c = "Fashion" then (50, 1500)
  else if c = "Grocery" then (5, 200)
  else if c = "Home & Garden" then (30, 3000)
  else if c = "Beauty" then (20, 800)
  else (40, 2000)

/-- Dirty city spellings per city, src/app.py lines 1416-1420. -/
def INCONSISTENT_CITIES (c : String) : List String :=
  if c = "Dubai" then ["Dubai", "DUBAI", "dubai", "Dubayy", "DXB"]
  else if c = "Abu Dhabi" then ["Abu Dhabi", "ABU DHABI", "abu dhabi", "AbuDhabi", "AD"]
  else ["Sharjah", "SHARJAH", "sharjah", "Shj", "Sharijah"]

/-- One generated product row, src/app.py lines 1433-1451 (the uniform real
price draw is abstracted as an integer draw in the same range). -/
def genProduct (rng : Nat → Nat) (i : Nat) : Product :=
  let category := GEN_CATEGORIES.getD (rng (7 * i) % GEN_CATEGORIES.length) ""
  let brands := GEN_BRANDS category
  let brand := brands.getD (rng (7 * i + 1) % brands.length) ""
  let range := GEN_PRICE_RANGE category
  let base_price : ℚ := ((range.1 + rng (7 * i + 2) % (range.2 - range.1 + 1) : Nat) : ℚ)
  let cost_margin : ℚ := ((40 + rng (7 * i + 3) % 31 : Nat) : ℚ) / 100
  { product_id := "PROD_" ++ zfill 5 (toString (i + 1))
    category := category, brand := brand, base_price := base_price
    unit_cost := some (base_price * cost_margin), tax_rate := 5 / 100
    launch_flag := if rng (7 * i + 4) % 100 < 15 then "New" else "Regular" }

/-- The products frame with the missing-cost injection of lines 1455-1458:
`int(300 * 0.015) = 4` rows (a seed-determined index sample, abstracted as
four stream draws) lose their unit cost. -/
def genProducts (rng : Nat → Nat) : List Product :=
  let base := (List.range NUM_PRODUCTS).map (genProduct rng)
  let missIdx := (List.range 4).map (fun j => rng (2100 + j) % NUM_PRODUCTS)
  imap (fun i p => if missIdx.contains i then { p with unit_cost := none } else p) base

/-- The 18 city-channel-fulfillment combinations, src/app.py lines 1466-1468. -/
def storeCombos : List (String × String × String) :=
  GEN_CITIES.flatMap (fun c => GEN_CHANNELS.flatMap (fun ch =>
    GEN_FULFILLMENT.map (fun f => (c, ch, f))))

/-- The raw stores frame, src/app.py lines 1463-1483: 40 percent of rows get
a dirty spelling of their city. -/
def genStores (rng : Nat → Nat) : List Store :=
  imap (fun i t =>
    let dirty := rng (3000 + 2 * i) % 100 < 40
    let variants := INCONSISTENT_CITIES t.1
    { store_id := "STORE_" ++ zfill 3 (toString (i + 1))
      city := if dirty then variants.getD (rng (3000 + 2 * i + 1) % variants.length) t.1 else t.1
      channel := t.2.1, fulfillment_type := t.2.2, city_clean := "" }) storeCombos

/-- Quantity choices of the weighted draw, src/app.py lines 1510-1513
(the weights are abstracted into the stream-determined selection). -/
def QTY_CHOICES : List ℚ := [1, 1, 1, 2, 2, 3, 4, 5]

/-- Discount choices, src/app.py line 1517. -/
def DISCOUNT_CHOICES : List ℚ := [0, 0, 0, 5, 10, 10, 15, 20, 25, 30]

/-- One raw sales row, src/app.py lines 1494-1542.  The order time is
`HISTORICAL_START + timedelta(days, hours, minutes, seconds)` with
`HISTORICAL_START = TODAY - 120 days` (line 1377); the enrichment columns
are left empty until post-processing.  The payment draw uses the 85/8/7
split of line 1523. -/
def genSaleRaw (rng : Nat → Nat) (productList : List Product)
    (storeIds : List String) (today : Int) (i : Nat) : Sale :=
  let b := 10000 + 10 * i
  let t : Int := (today - 120) * 86400 + ((rng b % 121 : Nat) : Int) * 86400 +
    ((rng (b + 1) % 24 : Nat) : Int) * 3600 + ((rng (b + 2) % 60 : Nat) : Int) * 60 +
    ((rng (b + 3) % 60 : Nat) : Int)
  let pid := (productList.map Product.product_id).getD (rng (b + 4) % productList.length) ""
  let base_price := ((productList.find? (fun p => p.product_id = pid)).map Product.base_price).getD 0
  let discount := DISCOUNT_CHOICES.getD (rng (b + 7) % DISCOUNT_CHOICES.length) 0
  let ps := rng (b + 8) % 100
  let payment_status := if ps < 85 then "Paid" else if ps < 93 then "Failed" else "Refunded"
  { order_id := "ORD_" ++ zfill 7 (toString (i + 1)), order_time := some t
    product_id := pid, store_id := storeIds.getD (rng (b + 5) % storeIds.length) ""
    qty := QTY_CHOICES.getD (rng (b + 6) % QTY_CHOICES.length) 1
    selling_price := base_price * (1 - discount / 100), discount_pct := some discount
    payment_status := payment_status
    return_flag := if payment_status = "Paid" ∧ rng (b + 9) % 100 < 5 then 1 else 0
    revenue := 0, category := "", brand := "", unit_cost := none, base_price := 0
    city := "", channel := "", city_clean := "" }

/-- The qty and price outlier pass over one row, src/app.py lines 1557-1565:
each of the `int(35000 * 0.004) = 140` passes picks a row, an outlier type
(qty, price or both) and the replacement or multiplier. -/
def applyOutliersRow (rng : Nat → Nat) (i : Nat) (s : Sale) : Sale :=
  (List.range 140).foldl (fun s j =>
    if rng (420000 + j) % NUM_SALES = i then
      let t := rng (421000 + 3 * j) % 3
      let s := if t = 0 ∨ t = 2 then
        { s with qty := ([50, 75, 100, 150, 200] : List ℚ).getD (rng (421000 + 3 * j + 1) % 5) 50 }
        else s
      if t = 1 ∨ t = 2 then
        { s with selling_price := s.selling_price * (([10, 15, 20] : List ℚ).getD (rng (421000 + 3 * j + 2) % 3) 10) }
        else s
    else s) s

/-- The raw sales frame with all four dirty-data passes of src/app.py lines
1546-1574: missing discounts (1050 rows), corrupted timestamps (525 rows,
all of which later parse to NaT, so they are injected as `none` directly),
outliers, appended duplicate rows (262) and the seed-42 shuffle of line 1574
(a seed-determined permutation, abstracted as a stream-determined rotation). -/
def genSalesRaw (rng : Nat → Nat) (productList : List Product)
    (storeIds : List String) (today : Int) : List Sale :=
  let base := (List.range NUM_SALES).map (genSaleRaw rng productList storeIds today)
  let missIdx := (List.range 1050).map (fun j => rng (400000 + j) % NUM_SALES)
  let s1 := imap (fun i s => if missIdx.contains i then { s with discount_pct := none } else s) base
  let corruptIdx := (List.range 525).map (fun j => rng (410000 + j) % NUM_SALES)
  let s2 := imap (fun i s => if corruptIdx.contains i then { s with order_time := none } else s) s1
  let s3 := imap (applyOutliersRow rng) s2
  let dupIdx := (List.range 262).map (fun j => rng (430000 + j) % NUM_SALES)
  let s4 := s3 ++ dupIdx.filterMap (fun i => s3.get? i)
  s4.rotate (rng 440000 % (s4.length + 1))

/-- Post-processing of one sales row, src/app.py lines 1664-1692: revenue,
the product merge, the stores merge, and `city_clean`. -/
def enrichSale (productList : List Product) (stores : List Store) (s : Sale) : Sale :=
  let s := { s with revenue := s.qty * s.selling_price }
  let s := match productList.find? (fun p => p.product_id = s.product_id) with
    | some p => { s with category := p.category, brand := p.brand
                         base_price := p.base_price, unit_cost := p.unit_cost }
    | none => s
  let s := match stores.find? (fun st => st.store_id = s.store_id) with
    | some st => { s with city := st.city, channel := st.channel }
    | none => s
  { s with city_clean := cityCleanLoad s.city }

/-- The inventory snapshot dates, src/app.py lines 1583-1584: the 8 days
from `TODAY - 7` to `TODAY` followed by the 14 days `TODAY + 1` to
`TODAY + 14`.  This is where the wall clock enters the generated bytes. -/
def inventoryDates (today : Int) : List Int :=
  ((List.range 8).map (fun i => today - 7 + ((i : Int)))) ++
  ((List.range 14).map (fun i => today + 1 + ((i : Int))))

/-- The 100 sampled product ids of src/app.py line 1580
(`products_df.sample(n=100, random_state=42)`, a seed-determined sample,
abstracted as 100 stream-determined picks). -/
def sampledProductIds (rng : Nat → Nat) (productList : List Product) : List String :=
  (List.range 100).map (fun j =>
    (productList.map Product.product_id).getD (rng (600000 + j) % productList.length) "")

/-- One raw inventory row, src/app.py lines 1588-1605. -/
def genInvRow (rng : Nat → Nat) (k : Nat) (d : Int) (pid sid : String) : InvRow :=
  let b := 700000 + 4 * k
  let base_stock : ℚ := ((10 + rng b % 491 : Nat) : ℚ)
  let variance : ℚ := ((rng (b + 1) % 51 : Nat) : ℚ) - 20
  { snapshot_date := some d, product_id := pid, store_id := sid
    stock_on_hand := max 0 (base_stock + variance)
    reorder_point := ((20 + rng (b + 2) % 61 : Nat) : ℚ)
    lead_time_days := ((1 + rng (b + 3) % 14 : Nat) : ℚ)
    stock_status := "", is_negative := false, is_extreme := false
    category := "", brand := "", city := "", channel := "", city_clean := "" }

/-- Row index and value picked by one pass of an injection loop. -/
def pickList (rng : Nat → Nat) (base count n : Nat) (choices : List ℚ) : List (Nat × ℚ) :=
  (List.range count).map (fun j =>
    (rng (base + 2 * j) % n, choices.getD (rng (base + 2 * j + 1) % choices.length) 0))

/-- The value left at row `i` by an assignment loop (the last assignment to
an index wins, matching the sequential Python loop). -/
def lastPick (picks : List (Nat × ℚ)) (i : Nat) : Option ℚ :=
  ((picks.filter (fun e => e.1 = i)).getLast?).map Prod.snd

/-- The raw inventory frame with the negative-stock (2 percent of 39600
rows = 792) and extreme-stock (1 percent = 396) injections of src/app.py
lines 1609-1619. -/
def genInventoryRaw (rng : Nat → Nat) (today : Int) (sampled storeIds : List String) :
    List InvRow :=
  let triples := (inventoryDates today).flatMap (fun d =>
    sampled.flatMap (fun p => storeIds.map (fun s => (d, p, s))))
  let rows := imap (fun k t => genInvRow rng k t.1 t.2.1 t.2.2) triples
  let n := rows.length
  let negPicks := pickList rng 900000 (n * 2 / 100) n [-10, -5, -1, -50, -100]
  let extremePicks := pickList rng 930000 (n / 100) n [9999, 99999, 10000]
  imap (fun i r =>
    match lastPick extremePicks i with
    | some v => { r with stock_on_hand := v }
    | none => match lastPick negPicks i with
      | some v => { r with stock_on_hand := v }
      | none => r) rows

/-- Post-processing of one inventory row, src/app.py lines 1695-1723:
stock status, dirty-data flags, the product and store merges, `city_clean`. -/
def enrichInv (productList : List Product) (stores : List Store) (r : InvRow) : InvRow :=
  let status := if r.stock_on_hand ≤ 0 then "Critical"
    else if r.stock_on_hand ≤ r.reorder_point then "Low" else "Healthy"
  let r := { r with stock_status := status
                    is_negative := decide (r.stock_on_hand < 0)
                    is_extreme := decide (r.stock_on_hand > 9000) }
  let r := match productList.find? (fun p => p.product_id = r.product_id) with
    | some p => { r with category := p.category, brand := p.brand }
    | none => r
  let r := match stores.find? (fun st => st.store_id = r.store_id) with
    | some st => { r with city := st.city, channel := st.channel }
    | none => r
  { r with city_clean := cityCleanLoad r.city }

/-- The ten campaign templates, src/app.py lines 1624-1635:
city, channel, category, discount, budget. -/
def CAMPAIGN_TEMPLATES : List (String × String × String × ℚ × ℚ) :=
  [("Dubai", "All", "Electronics", 20, 100000),
   ("Abu Dhabi", "All", "Fashion", 25, 75000),
   ("Sharjah", "All", "Grocery", 15, 50000),
   ("All", "App", "Beauty", 30, 60000),
   ("All", "Marketplace", "All", 35, 150000),
   ("All", "Web", "Sports", 20, 40000),
   ("All", "All", "All", 25, 200000),
   ("Dubai", "Web", "Home & Garden", 15, 80000),
   ("All", "App", "Electronics", 40, 120000),
   ("All", "All", "All", 10, 50000)]

/-- One campaign row, src/app.py lines 1639-1655 with the post-processing of
lines 1726-1732: `start = TODAY + offset`, `end = start + duration`,
`duration_days = (end - start).days` and `is_active` compared against the
clock (modelled at day granularity). -/
def genCampaign (rng : Nat → Nat) (today : Int) (i : Nat)
    (t : String × String × String × ℚ × ℚ) : Campaign :=
  let b := 950000 + 2 * i
  let start := today + ((rng b % 8 : Nat) : Int)
  let dur : Int := ((3 + rng (b + 1) % 12 : Nat) : Int)
  { campaign_id := "CAMP_" ++ zfill 3 (toString (i + 1))
    start_date := some start, end_date := some (start + dur)
    city := t.1, channel := t.2.1, category := t.2.2.1
    discount_pct := t.2.2.2.1, promo_budget := t.2.2.2.2
    duration_days := ((dur : ℚ))
    is_active := decide (start ≤ today ∧ today ≤ start + dur) }

/-- The five generated tables. -/
structure GenOutput where
  products : List Product
  stores : List Store
  sales : List Sale
  inventory : List InvRow
  campaigns : List Campaign
  deriving DecidableEq, Inhabited

/-- Embedding of `generate_sample_data` (src/app.py lines 1343-1738): the
whole output is a function of the seeded stream `rng` and of the wall-clock
day `today` and of nothing else. -/
def generate_sample_data (rng : Nat → Nat) (today : Int) : GenOutput :=
  let products := genProducts rng
  let storesRaw := genStores rng
  let storeIds := storesRaw.map Store.store_id
  let salesRaw := genSalesRaw rng products storeIds today
  let inventoryRaw := genInventoryRaw rng today (sampledProductIds rng products) storeIds
  { products := products
    stores := storesRaw.map (fun s => { s with city_clean := cityCleanLoad s.city })
    sales := salesRaw.map (enrichSale products storesRaw)
    inventory := inventoryRaw.map (enrichInv products storesRaw)
    campaigns := imap (genCampaign rng today) CAMPAIGN_TEMPLATES }

/-! ## Helper lemmas -/

theorem getD_map_of_lt {α β : Type} [Inhabited α] [Inhabited β] (f : α → β)
    (l : List α) (i : Nat) (h : i < l.length) :
    (l.map f).getD i default = f (l.getD i default) := by
  rw [List.getD_eq_getElem _ _ (by simpa using h), List.getD_eq_getElem _ _ h,
    List.getElem_map]

theorem getD_mem {α : Type} [Inhabited α] (l : List α) (i : Nat)
    (h : i < l.length) : l.getD i default ∈ l := by
  rw [List.getD_eq_getElem _ _ h]
  exact List.getElem_mem h

theorem map_id_of_fixed {α : Type} (f : α → α) :
    ∀ (l : List α), (∀ x ∈ l, f x = x) → l.map f = l
  | [], _ => rfl
  | x :: xs, h => by
    have hx := h x (List.mem_cons_self x xs)
    have hxs := map_id_of_fixed f xs (fun y hy => h y (List.mem_cons_of_mem x hy))
    simp [hx, hxs]

/-- A standard city is not a key of the alias mapping, so `fixCity` fixes it. -/
theorem fixCity_of_std (c : String) (h : c ∈ STANDARD_CITIES) : fixCity c = c := by
  have h2 : c = "Dubai" ∨ c = "Abu Dhabi" ∨ c = "Sharjah" := by
    simpa [STANDARD_CITIES] using h
  rcases h2 with h2 | h2 | h2 <;> subst h2 <;> decide

/-- The apply-fixes city standardization always lands on a standard name. -/
theorem fixCity_mem (c : String) : fixCity c ∈ STANDARD_CITIES := by
  show (if mapReplace CITY_MAPPING c ∈ STANDARD_CITIES
    then mapReplace CITY_MAPPING c else "Dubai") ∈ STANDARD_CITIES
  by_cases h : mapReplace CITY_MAPPING c ∈ STANDARD_CITIES
  · rw [if_pos h]; exact h
  · rw [if_neg h]; decide

/-! ## Claim C10: the extreme-stock cap -/

/-- Claim C10: after the extreme-stock fix, every `stock_on_hand` in the
cleaned inventory is at most 5000; every value strictly greater than 5000 is
replaced by exactly 5000, and values at most 5000 are unchanged
(src/app.py lines 4002-4006). -/
theorem claim_C10_extreme_stock_cap (inv : List InvRow) :
    (∀ r ∈ capStock inv, r.stock_on_hand ≤ 5000) ∧
    (∀ i, i < inv.length →
      ((inv.getD i default).stock_on_hand > 5000 →
        (capStock inv).getD i default = { inv.getD i default with stock_on_hand := 5000 }) ∧
      ((inv.getD i default).stock_on_hand ≤ 5000 →
        (capStock inv).getD i default = inv.getD i default)) := by
  constructor
  · intro r hr
    unfold capStock at hr
    obtain ⟨x, hx, rfl⟩ := List.mem_map.mp hr
    by_cases h : x.stock_on_hand > 5000
    · simp [h]
    · simp only [if_neg h]
      exact not_lt.mp h
  · intro i hi
    have hmap : (capStock inv).getD i default =
        (if (inv.getD i default).stock_on_hand > 5000
          then { inv.getD i default with stock_on_hand := 5000 }
          else inv.getD i default) := by
      unfold capStock
      rw [getD_map_of_lt _ _ _ hi]
    constructor
    · intro h; rw [hmap, if_pos h]
    · intro h; rw [hmap, if_neg (not_lt.mpr h)]

/-- Inventory row with over-extreme stock used as a concrete test input. -/
def invW1 : InvRow := { (default : InvRow) with stock_on_hand := 6000 }

/-- Inventory row with ordinary stock used as a concrete test input. -/
def invW2 : InvRow := { (default : InvRow) with stock_on_hand := 10 }

/-- Witness for claim C10 at a concrete two-row inventory: 6000 is capped to
5000 (even though it is below the 9000 defect threshold) and 10 is kept. -/
theorem claim_C10_witness :
    (capStock [invW1, invW2]).getD 0 default =
      { [invW1, invW2].getD 0 default with stock_on_hand := 5000 } ∧
    (capStock [invW1, invW2]).getD 1 default = [invW1, invW2].getD 1 default := by
  constructor
  · exact ((claim_C10_extreme_stock_cap [invW1, invW2]).2 0 (by decide)).1 (by decide)
  · exact ((claim_C10_extreme_stock_cap [invW1, invW2]).2 1 (by decide)).2 (by decide)

/-! ## Claim C9: deduplication keeps exactly the first occurrence -/

/-- Number of sales rows carrying one order id. -/
def countKey (l : List Sale) (o : String) : Nat :=
  l.countP (fun s => s.order_id = o)

theorem dedupGo_countKey_of_mem (o : String) :
    ∀ (l : List Sale) (seen : List String), o ∈ seen →
      countKey (dedupGo seen l) o = 0
  | [], _, _ => rfl
  | s :: rest, seen, h => by
    unfold dedupGo
    by_cases hs : s.order_id ∈ seen
    · rw [if_pos hs]
      exact dedupGo_countKey_of_mem o rest seen h
    · rw [if_neg hs]
      have hne : ¬ (s.order_id = o) := fun he => hs (he ▸ h)
      have ih := dedupGo_countKey_of_mem o rest (s.order_id :: seen)
        (List.mem_cons_of_mem _ h)
      unfold countKey at ih ⊢
      rw [List.countP_cons]
      simp [hne, ih]

theorem dedupGo_countKey_of_not_mem (o : String) :
    ∀ (l : List Sale) (seen : List String), o ∉ seen →
      countKey (dedupGo seen l) o = min 1 (countKey l o)
  | [], seen, _ => by simp [dedupGo, countKey]
  | s :: rest, seen, h => by
    unfold dedupGo
    by_cases hs : s.order_id ∈ seen
    · rw [if_pos hs]
      have hne : ¬ (s.order_id = o) := fun he => h (he ▸ hs)
      have ih := dedupGo_countKey_of_not_mem o rest seen h
      unfold countKey at ih ⊢
      rw [List.countP_cons]
      simp [hne, ih]
    · rw [if_neg hs]
      by_cases ho : s.order_id = o
      · subst ho
        have hz := dedupGo_countKey_of_mem s.order_id rest
          (s.order_id :: seen) (List.mem_cons_self _ _)
        unfold countKey at hz ⊢
        rw [List.countP_cons, List.countP_cons, hz]
        simp
      · have hnm : o ∉ s.order_id :: seen := by
          intro hmem
          rcases List.mem_cons.mp hmem with hgg | hgg
          · exact ho hgg.symm
          · exact h hgg
        have ih := dedupGo_countKey_of_not_mem o rest (s.order_id :: seen) hnm
        unfold countKey at ih ⊢
        rw [List.countP_cons, List.countP_cons]
        simp [ho, ih]

theorem dedupGo_find (o : String) :
    ∀ (l : List Sale) (seen : List String), o ∉ seen →
      (dedupGo seen l).find? (fun s => s.order_id = o) =
        l.find? (fun s => s.order_id = o)
  | [], _, _ => rfl
  | s :: rest, seen, h => by
    unfold dedupGo
    by_cases hs : s.order_id ∈ seen
    · rw [if_pos hs]
      have hne : ¬ (s.order_id = o) := fun he => h (he ▸ hs)
      rw [dedupGo_find o rest seen h, List.find?_cons]
      simp [hne]
    · rw [if_neg hs]
      by_cases ho : s.order_id = o
      · rw [List.find?_cons, List.find?_cons]
        simp [ho]
      · have hnm : o ∉ s.order_id :: seen := by
          intro hmem
          rcases List.mem_cons.mp hmem with hgg | hgg
          · exact ho hgg.symm
          · exact h hgg
        have ih := dedupGo_find o rest (s.order_id :: seen) hnm
        rw [List.find?_cons, List.find?_cons]
        simp [ho, ih]

/-- Claim C9: if an order id occurs in the sales table (in particular when it
occurs k > 1 times with identical rows), then after the duplicate-order fix
it occurs exactly once, and the surviving row is the first occurrence in
input order (src/app.py lines 3982-3987). -/
theorem claim_C9_dedup_first (sales : List Sale) (o : String)
    (h : 1 ≤ countKey sales o) :
    countKey (dedupSales sales) o = 1 ∧
    (dedupSales sales).find? (fun s => s.order_id = o) =
      sales.find? (fun s => s.order_id = o) := by
  constructor
  · have hmin := dedupGo_countKey_of_not_mem o sales [] (by simp)
    unfold dedupSales
    rw [hmin]
    omega
  · exact dedupGo_find o sales [] (by simp)

/-- First copy of a duplicated sales row used as a concrete test input. -/
def saleW1 : Sale := { (default : Sale) with order_id := "ORD_1", order_time := some 0, qty := 2 }

/-- A distinct sales row used as a concrete test input. -/
def saleW2 : Sale := { (default : Sale) with order_id := "ORD_2", order_time := some 86400 }

/-- Witness for claim C9 on a table where "ORD_1" occurs twice with identical
rows: it survives exactly once and the kept row is the first occurrence. -/
theorem claim_C9_witness :
    countKey (dedupSales [saleW1, saleW1, saleW2]) "ORD_1" = 1 ∧
    (dedupSales [saleW1, saleW1, saleW2]).find? (fun s => s.order_id = "ORD_1") =
      [saleW1, saleW1, saleW2].find? (fun s => s.order_id = "ORD_1") :=
  claim_C9_dedup_first [saleW1, saleW1, saleW2] "ORD_1" (by decide)

/-! ## Claim C4: cleaned city values -/

/-- Claim C4 (amended): in the apply-fixes path every cleaned store city is
one of the three standard cities (unmapped spellings fall back to "Dubai",
src/app.py lines 3975-3979); the load-path `city_clean` of an unmapped
spelling, by contrast, stays the raw spelling (see the counterexample). -/
theorem claim_C4_city_standard (stores : List Store) :
    ∀ s ∈ fixCities stores, s.city ∈ STANDARD_CITIES := by
  intro s hs
  unfold fixCities at hs
  obtain ⟨x, hx, rfl⟩ := List.mem_map.mp hs
  simpa using fixCity_mem x.city

/-- Store row with a dirty city spelling used as a concrete test input. -/
def storeW : Store :=
  { store_id := "STORE_001", city := "DXB", channel := "App",
    fulfillment_type := "Own", city_clean := "" }

/-- Witness for claim C4 at a concrete store with city "DXB". -/
theorem claim_C4_witness :
    ((fixCities [storeW]).getD 0 default).city ∈ STANDARD_CITIES :=
  claim_C4_city_standard [storeW] _ (by decide)

/-- Counterexample to claim C4 as stated: in the load/report path
(src/app.py lines 1822-1824) an unmapped raw spelling such as "Duabi"
survives into `city_clean` unchanged; it is neither a standard city nor the
explicit "Dubai" fallback of the apply-fixes path. -/
theorem claim_C4_counterexample :
    cityCleanLoad "Duabi" = "Duabi" ∧ "Duabi" ∉ STANDARD_CITIES := by
  constructor
  · decide
  · decide

/-! ## Claim C6: column-name tolerance with no alias mapping -/

/-- Claim C6 (amended): loading tolerates column-name casing and surrounding
whitespace (names are compared after lowercasing and stripping; the loader
additionally turns inner spaces into underscores), and a products upload
validates exactly when every expected column name appears among the
normalized uploaded names.  There is no alias table: names that normalize
differently are different logical columns. -/
theorem claim_C6_validate_products (cols : List String) :
    (validate_dataframe "products" cols).1 = true ↔
      ∀ c ∈ EXPECTED_PRODUCTS, c ∈ cols.map normalizeValidateCol := by
  unfold validate_dataframe
  rw [if_pos (by decide : "products" ∈ SCHEMA_NAMES)]
  simp only [expectedColumnsFor]
  rw [if_pos trivial, List.isEmpty_iff, List.filter_eq_nil_iff]
  constructor
  · intro h c hc
    have := h c hc
    simpa using this
  · intro h c hc
    simpa using h c hc

/-- Counterexample to claim C6 as stated: the alias names `cost` and
`unit_cost` are not mapped onto the logical column `unit_cost_aed` — an
otherwise well-formed products upload whose cost column is named
"Unit_Cost" fails validation with `unit_cost_aed` reported missing. -/
theorem claim_C6_counterexample :
    (validate_dataframe "products"
      ["Product_ID", "Category", "Brand", "Base_Price_AED", "Unit_Cost",
       "Tax_Rate", "Launch_Flag"]).1 = false ∧
    "unit_cost_aed" ∈ (validate_dataframe "products"
      ["Product_ID", "Category", "Brand", "Base_Price_AED", "Unit_Cost",
       "Tax_Rate", "Launch_Flag"]).2.1 ∧
    normalizeLoadCol "cost" ≠ "unit_cost_aed" ∧
    normalizeLoadCol "unit_cost" ≠ "unit_cost_aed" ∧
    normalizeLoadCol " Unit Cost AED " = "unit_cost_aed" := by
  refine ⟨by decide, by decide, by decide, by decide, by decide⟩

/-! ## Claim C5: the ROI guard of the promotion simulator -/

/-- Claim C5: for every simulation input the returned
`roi` equals `(incremental_revenue - budget) / budget * 100` when the budget
is positive, and 0 when the budget is 0 — the division is guarded, no
exception is possible (src/app.py lines 7172-7177). -/
theorem claim_C5_roi (sales : List Sale) (p : SimParams) :
    (p.budget > 0 →
      (run_promotion_simulation sales p).roi =
        ((run_promotion_simulation sales p).incremental_revenue - p.budget) /
          p.budget * 100) ∧
    (p.budget = 0 → (run_promotion_simulation sales p).roi = 0) := by
  constructor
  · intro h
    simp only [run_promotion_simulation]
    rw [if_pos h]
  · intro h
    simp only [run_promotion_simulation]
    rw [if_neg (by rw [h]; exact lt_irrefl 0)]

/-- Scenario parameters with a positive budget used as a concrete test input. -/
def simParamsW : SimParams :=
  { city := "All", channel := "All", category := "All", discount_pct := 20,
    duration_days := 7, lift_multiplier := 3 / 2, budget := 50000 }

/-- Scenario parameters with a zero budget used as a concrete test input. -/
def simParamsW0 : SimParams :=
  { city := "All", channel := "All", category := "All", discount_pct := 20,
    duration_days := 7, lift_multiplier := 3 / 2, budget := 0 }

/-- Witness for claim C5 at concrete parameters: budget 50000 exercises the
formula branch, budget 0 exercises the guard. -/
theorem claim_C5_witness :
    (run_promotion_simulation [] simParamsW).roi =
      ((run_promotion_simulation [] simParamsW).incremental_revenue -
        simParamsW.budget) / simParamsW.budget * 100 ∧
    (run_promotion_simulation [] simParamsW0).roi = 0 :=
  ⟨(claim_C5_roi [] simParamsW).1 (by decide),
   (claim_C5_roi [] simParamsW0).2 rfl⟩

/-! ## Claim C8: reorder quantities -/

theorem find_map_keys (f : String → ℚ) (k : String) :
    ∀ (keys : List String),
      ((keys.map (fun pid => (pid, f pid))).find? (fun e => e.1 = k)).map Prod.snd =
        if k ∈ keys then some (f k) else none
  | [] => by simp
  | a :: keys => by
    rw [List.map_cons]
    by_cases ha : a = k
    · subst ha
      rw [List.find?_cons_of_pos _ (by simp)]
      simp
    · rw [List.find?_cons_of_neg _ (by simp [ha])]
      have ha2 : ¬ (k = a) := fun he => ha he.symm
      have ih := find_map_keys f k keys
      have hd : (fun e : String × ℚ => decide (e.1 = k)) (a, f a) = false :=
        decide_eq_false ha
      rw [ih]
      by_cases hk : k ∈ keys
      · rw [if_pos hk, if_pos (List.mem_cons_of_mem _ hk)]
      · rw [if_neg hk, if_neg (by simp [List.mem_cons, ha2, hk])]

/-- The merged-and-filled velocity column read at one inventory row equals
the per-product spec formula: `fillna(0)` on the left merge is exactly
"0 when the product has no valid sales". -/
theorem velocity_lookup (sales : List Sale) (pid : String) :
    (((product_velocity sales).find? (fun e => e.1 = pid)).map Prod.snd).getD 0 =
      dailyVelocitySpec sales pid := by
  simp only [product_velocity, dailyVelocitySpec]
  by_cases h1 : (validSales sales).length > 0
  · rw [if_pos h1]
    by_cases h2 : dateRangeDays (validSales sales) > 0
    · rw [if_pos h2, if_pos ⟨h1, h2⟩, find_map_keys]
      by_cases hm : pid ∈ ((validSales sales).map Sale.product_id).dedup
      · rw [if_pos hm]
        rfl
      · rw [if_neg hm]
        have hq : totalQtySold (validSales sales) pid = 0 := by
          unfold totalQtySold
          have hnil : (validSales sales).filter (fun s => s.product_id = pid) = [] := by
            rw [List.filter_eq_nil_iff]
            intro a ha hpa
            apply hm
            rw [List.mem_dedup]
            exact List.mem_map.mpr ⟨a, ha, by simpa using hpa⟩
          rw [hnil]
          rfl
        simp [hq]
    · rw [if_neg h2, if_neg (by tauto)]
      rfl
  · rw [if_neg h1, if_neg (by tauto)]
    rfl

/-- Claim C8: every computed reorder quantity equals
`max(0, velocity * safety_days + velocity * cycle_days +
velocity * lead_time_days - stock_on_hand)` with the daily velocity given by
total quantity sold over observed days (0 without valid sales history); in
particular it is never negative (src/app.py lines 6219-6245). -/
theorem claim_C8_reorder (sales : List Sale) (inv : List InvRow) (sd rc : ℚ) :
    ∀ rr ∈ render_reorder_rows sales inv sd rc,
      rr.reorder_qty = max 0 (dailyVelocitySpec sales rr.row.product_id * sd +
        dailyVelocitySpec sales rr.row.product_id * rc +
        dailyVelocitySpec sales rr.row.product_id * rr.row.lead_time_days -
        rr.row.stock_on_hand) ∧
      0 ≤ rr.reorder_qty := by
  intro rr hrr
  unfold render_reorder_rows at hrr
  obtain ⟨r, hr, rfl⟩ := List.mem_map.mp hrr
  constructor
  · dsimp only
    rw [velocity_lookup]
  · dsimp only
    exact le_max_left 0 _

/-- Sales row one of the reorder test history. -/
def saleV1 : Sale :=
  { (default : Sale) with
    order_id := "O1"
    order_time := some 0
    product_id := "P1"
    qty := 4 }

/-- Sales row two of the reorder test history, two days later. -/
def saleV2 : Sale :=
  { (default : Sale) with
    order_id := "O2"
    order_time := some (2 * 86400)
    product_id := "P1"
    qty := 6 }

/-- Inventory row of the reorder test. -/
def invV : InvRow :=
  { (default : InvRow) with
    product_id := "P1"
    stock_on_hand := 5
    lead_time_days := 3 }

/-- Witness for claim C8 at a concrete two-sale history (velocity 5 units a
day over 2 observed days) and one inventory row. -/
theorem claim_C8_witness :
    ((render_reorder_rows [saleV1, saleV2] [invV] 7 14).getD 0 default).reorder_qty =
      max 0 (dailyVelocitySpec [saleV1, saleV2]
          ((render_reorder_rows [saleV1, saleV2] [invV] 7 14).getD 0 default).row.product_id * 7 +
        dailyVelocitySpec [saleV1, saleV2]
          ((render_reorder_rows [saleV1, saleV2] [invV] 7 14).getD 0 default).row.product_id * 14 +
        dailyVelocitySpec [saleV1, saleV2]
          ((render_reorder_rows [saleV1, saleV2] [invV] 7 14).getD 0 default).row.product_id *
          ((render_reorder_rows [saleV1, saleV2] [invV] 7 14).getD 0 default).row.lead_time_days -
        ((render_reorder_rows [saleV1, saleV2] [invV] 7 14).getD 0 default).row.stock_on_hand) ∧
    0 ≤ ((render_reorder_rows [saleV1, saleV2] [invV] 7 14).getD 0 default).reorder_qty :=
  claim_C8_reorder [saleV1, saleV2] [invV] 7 14 _
    (getD_mem _ 0 (by simp [render_reorder_rows]))

/-! ## Claim C2: the KPI engine on an empty selection -/

/-- Claim C2 (amended): on an empty filtered selection (no valid sales rows,
no inventory rows) every guarded numeric metric of the KPI engine is 0 and
the top category degrades to the string "N/A" — no exception is raised; but
`avg_discount`, an unguarded pandas mean (src/app.py line 1991), is NaN
(`none`), not 0, and is returned to the caller. -/
theorem claim_C2_kpi_empty (sales : List Sale) (inventory : List InvRow)
    (products : List Product) (campaigns : List Campaign)
    (hs : validSales sales = []) (hi : inventory = []) :
    let k := calculate_kpi_metrics sales inventory products campaigns
    k.total_revenue = 0 ∧ k.paid_revenue = 0 ∧ k.daily_avg_revenue = 0 ∧
    k.avg_order_value = 0 ∧ k.total_orders = 0 ∧ k.total_qty = 0 ∧
    k.daily_avg_orders = 0 ∧ k.avg_qty_per_order = 0 ∧ k.refund_rate = 0 ∧
    k.return_rate = 0 ∧ k.discounted_orders_pct = 0 ∧ k.total_stock = 0 ∧
    k.low_stock_count = 0 ∧ k.healthy_stock_count = 0 ∧
    k.stock_health_pct = 0 ∧ k.negative_stock_count = 0 ∧
    k.extreme_stock_count = 0 ∧ k.top_category = "N/A" ∧
    k.avg_discount = none := by
  subst hi
  simp [calculate_kpi_metrics, hs, meanOpt, topCategory, categoryRevenue,
    maxInt, List.mergeSort_nil]

/-- Counterexample to claim C2 as stated: at the empty selection the
returned `avg_discount` is the NaN mean of an empty column, not 0. -/
theorem claim_C2_counterexample :
    (calculate_kpi_metrics [] [] [] []).avg_discount = none ∧
    (calculate_kpi_metrics [] [] [] []).avg_discount ≠ some 0 :=
  ⟨rfl, by decide⟩

/-- Sales row whose timestamp never parsed, used as a concrete test input. -/
def saleN : Sale := { (default : Sale) with order_id := "ORD_X" }

/-- Witness for claim C2 at the concrete selection holding one invalid-time
sales row and no inventory. -/
theorem claim_C2_witness :
    let k := calculate_kpi_metrics [saleN] [] [] []
    k.total_revenue = 0 ∧ k.paid_revenue = 0 ∧ k.daily_avg_revenue = 0 ∧
    k.avg_order_value = 0 ∧ k.total_orders = 0 ∧ k.total_qty = 0 ∧
    k.daily_avg_orders = 0 ∧ k.avg_qty_per_order = 0 ∧ k.refund_rate = 0 ∧
    k.return_rate = 0 ∧ k.discounted_orders_pct = 0 ∧ k.total_stock = 0 ∧
    k.low_stock_count = 0 ∧ k.healthy_stock_count = 0 ∧
    k.stock_health_pct = 0 ∧ k.negative_stock_count = 0 ∧
    k.extreme_stock_count = 0 ∧ k.top_category = "N/A" ∧
    k.avg_discount = none :=
  claim_C2_kpi_empty [saleN] [] [] [] (by decide) rfl

/-! ## Claim C7: unit-cost imputation -/

/-- Claim C7 (amended): rows with a non-null unit cost are unchanged by the
imputation fix; a row with a missing unit cost receives
`base_price * median(unit_cost / base_price)` taken over the non-null rows
of its category — and when its category has no valid ratio the group median
is NaN and the cost stays missing (`none`): the 0.5 fallback of
`category_medians.get(cat, 0.5)` never fires for a present category
(src/app.py lines 4014-4028). -/
theorem claim_C7_impute (ps : List Product) (i : Nat) (h : i < ps.length) :
    ((ps.getD i default).unit_cost ≠ none →
      (imputeCosts ps).getD i default = ps.getD i default) ∧
    ((ps.getD i default).unit_cost = none →
      (imputeCosts ps).getD i default =
        { ps.getD i default with
          unit_cost := (medianRats (ratiosOf ps (ps.getD i default).category)).map
            (fun r => (ps.getD i default).base_price * r) }) := by
  by_cases ha : ps.any (fun p => p.unit_cost = none)
  · have hgd : (imputeCosts ps).getD i default =
        imputeCostRow ps (ps.getD i default) := by
      unfold imputeCosts
      rw [if_pos ha, getD_map_of_lt _ _ _ h]
    constructor
    · intro hc
      rw [hgd]
      unfold imputeCostRow
      rw [if_neg hc]
    · intro hc
      rw [hgd]
      unfold imputeCostRow
      rw [if_pos hc]
      have hmem : (ps.getD i default).category ∈ ps.map Product.category :=
        List.mem_map.mpr ⟨ps.getD i default, getD_mem ps i h, rfl⟩
      unfold categoryMedianGet
      rw [if_pos hmem]
  · have hgd : imputeCosts ps = ps := by
      unfold imputeCosts
      rw [if_neg ha]
    rw [hgd]
    constructor
    · intro _
      rfl
    · intro hc
      exfalso
      apply ha
      rw [List.any_eq_true]
      exact ⟨ps.getD i default, getD_mem ps i h, decide_eq_true hc⟩

/-- Product with a missing cost in a category with no valid ratio. -/
def productX : Product :=
  { product_id := "PROD_X", category := "Electronics", brand := "BrandX",
    base_price := 100, unit_cost := none, tax_rate := 5 / 100,
    launch_flag := "Regular" }

/-- Counterexample to claim C7 as stated: for a table whose only Electronics
row has a missing cost, the claim promises the 0.5 fallback, that is cost
100 * 0.5 = 50; the code leaves the cost missing (the present-but-all-NaN
group median is NaN, and `get` returns it rather than the 0.5 default). -/
theorem claim_C7_counterexample :
    ((imputeCosts [productX]).getD 0 default).unit_cost = none ∧
    productX.base_price * (1 / 2) = 50 ∧
    ((imputeCosts [productX]).getD 0 default).unit_cost ≠ some 50 := by
  refine ⟨rfl, by norm_num [productX], by decide⟩

/-- Product with a valid cost ratio 0.6, used as a concrete test input. -/
def productY : Product :=
  { product_id := "PROD_Y", category := "Electronics", brand := "BrandY",
    base_price := 100, unit_cost := some 60, tax_rate := 5 / 100,
    launch_flag := "Regular" }

/-- Product with a missing cost next to a valid ratio in its category. -/
def productZ : Product :=
  { product_id := "PROD_Z", category := "Electronics", brand := "BrandZ",
    base_price := 200, unit_cost := none, tax_rate := 5 / 100,
    launch_flag := "New" }

/-- Witness for claim C7 at a concrete two-product table: the non-null row
is unchanged and the missing cost becomes base times the category median
ratio (200 * 0.6 = 120). -/
theorem claim_C7_witness :
    (imputeCosts [productY, productZ]).getD 0 default =
      [productY, productZ].getD 0 default ∧
    (imputeCosts [productY, productZ]).getD 1 default =
      { [productY, productZ].getD 1 default with
        unit_cost := (medianRats (ratiosOf [productY, productZ]
            ([productY, productZ].getD 1 default).category)).map
          (fun r => ([productY, productZ].getD 1 default).base_price * r) } :=
  ⟨(claim_C7_impute [productY, productZ] 0 (by decide)).1 (by decide),
   (claim_C7_impute [productY, productZ] 1 (by decide)).2 (by decide)⟩

/-! ## Claim C3: idempotence of the apply-fixes cleaner -/

/-- The order-id column of a sales frame. -/
def keysOf (l : List Sale) : List String := l.map Sale.order_id

theorem keysOf_cons (s : Sale) (l : List Sale) :
    keysOf (s :: l) = s.order_id :: keysOf l := rfl

theorem keysOf_fillDiscount (l : List Sale) :
    keysOf (fillDiscount l) = keysOf l := by
  unfold keysOf fillDiscount
  rw [List.map_map]
  exact List.map_congr_left (fun s _ => rfl)

/-- City standardization is idempotent on one cell. -/
theorem fixCity_idem (c : String) : fixCity (fixCity c) = fixCity c :=
  fixCity_of_std _ (fixCity_mem c)

/-- Fix 1 is idempotent on the stores frame. -/
theorem fixCities_idem (st : List Store) :
    fixCities (fixCities st) = fixCities st := by
  unfold fixCities
  rw [List.map_map]
  apply List.map_congr_left
  intro s _
  show { s with city := fixCity (fixCity s.city) } = { s with city := fixCity s.city }
  rw [fixCity_idem]

theorem dedupGo_invariants : ∀ (l : List Sale) (seen : List String),
    (keysOf (dedupGo seen l)).Nodup ∧ ∀ o ∈ keysOf (dedupGo seen l), o ∉ seen
  | [], seen => ⟨List.nodup_nil, by simp [dedupGo, keysOf]⟩
  | s :: rest, seen => by
    unfold dedupGo
    by_cases hs : s.order_id ∈ seen
    · rw [if_pos hs]
      exact dedupGo_invariants rest seen
    · rw [if_neg hs]
      obtain ⟨ihn, ihd⟩ := dedupGo_invariants rest (s.order_id :: seen)
      constructor
      · rw [keysOf_cons, List.nodup_cons]
        exact ⟨fun hmem => (ihd _ hmem) (List.mem_cons_self _ _), ihn⟩
      · intro o ho
        rw [keysOf_cons] at ho
        rcases List.mem_cons.mp ho with h1 | h1
        · subst h1; exact hs
        · exact fun hseen => (ihd o h1) (List.mem_cons_of_mem _ hseen)

theorem dedupGo_eq_self : ∀ (l : List Sale) (seen : List String),
    (keysOf l).Nodup → (∀ o ∈ keysOf l, o ∉ seen) → dedupGo seen l = l
  | [], _, _, _ => rfl
  | s :: rest, seen, hn, hd => by
    unfold dedupGo
    have hs : s.order_id ∉ seen := hd _ (by rw [keysOf_cons]; exact List.mem_cons_self _ _)
    rw [if_neg hs]
    have hn2 : s.order_id ∉ keysOf rest ∧ (keysOf rest).Nodup := by
      rw [keysOf_cons, List.nodup_cons] at hn
      exact hn
    congr 1
    apply dedupGo_eq_self rest (s.order_id :: seen) hn2.2
    intro o ho hmem
    rcases List.mem_cons.mp hmem with h1 | h1
    · exact hn2.1 (h1 ▸ ho)
    · exact (hd o (by rw [keysOf_cons]; exact List.mem_cons_of_mem _ ho)) h1

/-- Fix 2 is idempotent: deduplicating a frame whose keys are already
pairwise distinct changes nothing. -/
theorem dedupSales_of_nodup (l : List Sale) (h : (keysOf l).Nodup) :
    dedupSales l = l :=
  dedupGo_eq_self l [] h (by simp)

theorem fillDiscount_idem (l : List Sale) :
    fillDiscount (fillDiscount l) = fillDiscount l := by
  unfold fillDiscount
  rw [List.map_map]
  exact List.map_congr_left (fun s _ => rfl)

/-- The sales side of one full cleaning pass is idempotent. -/
theorem cleanSales_idem (s : List Sale) :
    fillDiscount (dropInvalidTs (dedupSales
        (fillDiscount (dropInvalidTs (dedupSales s))))) =
      fillDiscount (dropInvalidTs (dedupSales s)) := by
  have hnodup : (keysOf (dedupSales s)).Nodup := (dedupGo_invariants s []).1
  have hsub : List.Sublist (keysOf (dropInvalidTs (dedupSales s)))
      (keysOf (dedupSales s)) :=
    (List.filter_sublist _).map Sale.order_id
  have hnodup2 : (keysOf (fillDiscount (dropInvalidTs (dedupSales s)))).Nodup := by
    rw [keysOf_fillDiscount]
    exact List.Nodup.sublist hsub hnodup
  rw [dedupSales_of_nodup _ hnodup2]
  have h2 : dropInvalidTs (fillDiscount (dropInvalidTs (dedupSales s))) =
      fillDiscount (dropInvalidTs (dedupSales s)) := by
    apply List.filter_eq_self.mpr
    intro x hx
    obtain ⟨y, hy, rfl⟩ := List.mem_map.mp hx
    have hy2 : y.order_time ≠ none := of_decide_eq_true (List.mem_filter.mp hy).2
    exact decide_eq_true hy2
  rw [h2, fillDiscount_idem]

/-- Fixes 4 and 5 together are idempotent on the inventory frame. -/
theorem invFix_idem (inv : List InvRow) :
    capStock (fixNegStock (capStock (fixNegStock inv))) =
      capStock (fixNegStock inv) := by
  unfold capStock fixNegStock
  simp only [List.map_map]
  apply List.map_congr_left
  intro r _
  simp only [Function.comp_apply]
  by_cases h1 : r.stock_on_hand < 0
  · rw [if_pos h1]
    norm_num
  · rw [if_neg h1]
    by_cases h2 : r.stock_on_hand > 5000
    · rw [if_pos h2]
      norm_num
    · rw [if_neg h2, if_neg h1, if_neg h2]

theorem imputeCostRow_cat (ps : List Product) (p : Product) :
    (imputeCostRow ps p).category = p.category := by
  unfold imputeCostRow
  split <;> rfl

theorem imputeCostRow_of_some (ps : List Product) (p : Product)
    (hp : p.unit_cost ≠ none) : imputeCostRow ps p = p := by
  unfold imputeCostRow
  rw [if_neg hp]

theorem medianRats_eq_none (l : List ℚ) : medianRats l = none ↔ l = [] := by
  constructor
  · intro hm
    by_contra h
    unfold medianRats at hm
    rw [if_neg h] at hm
    by_cases hodd : (sortRats l).length % 2 = 1
    · rw [if_pos hodd] at hm
      exact Option.some_ne_none _ hm
    · rw [if_neg hodd] at hm
      exact Option.some_ne_none _ hm
  · intro h
    subst h
    rfl

theorem ratiosOf_eq_nil_iff (ps : List Product) (c : String) :
    ratiosOf ps c = [] ↔ ∀ p ∈ ps, p.category = c → p.unit_cost = none := by
  unfold ratiosOf
  rw [List.filterMap_eq_nil_iff]
  constructor
  · intro h p hp hc
    have h2 := h p (List.mem_filter.mpr ⟨hp, decide_eq_true hc⟩)
    unfold costRatioOf at h2
    exact Option.map_eq_none'.mp h2
  · intro h x hx
    obtain ⟨hxm, hxc⟩ := List.mem_filter.mp hx
    have h2 := h x hxm (of_decide_eq_true hxc)
    unfold costRatioOf
    rw [h2]
    rfl

theorem imputeCostRow_self (ps : List Product) (p : Product)
    (hp : p.unit_cost = none) (hmem : p.category ∈ ps.map Product.category)
    (hmed : medianRats (ratiosOf ps p.category) = none) :
    imputeCostRow ps p = p := by
  unfold imputeCostRow
  rw [if_pos hp]
  unfold categoryMedianGet
  rw [if_pos hmem, hmed]
  show { p with unit_cost := none } = p
  cases p
  simp_all

theorem imputeCostRow_cost_formula (ps : List Product) (p : Product)
    (hp : p.unit_cost = none) (hmem : p.category ∈ ps.map Product.category) :
    (imputeCostRow ps p).unit_cost =
      (medianRats (ratiosOf ps p.category)).map (fun r => p.base_price * r) := by
  unfold imputeCostRow
  rw [if_pos hp]
  show (categoryMedianGet ps p.category).map (fun r => p.base_price * r) = _
  unfold categoryMedianGet
  rw [if_pos hmem]

/-- Fix 6 on the products frame is idempotent. -/
theorem imputeCosts_idem (ps : List Product) :
    imputeCosts (imputeCosts ps) = imputeCosts ps := by
  by_cases ha : ps.any (fun p => p.unit_cost = none)
  · have hq : imputeCosts ps = ps.map (imputeCostRow ps) := by
      unfold imputeCosts
      rw [if_pos ha]
    rw [hq]
    by_cases hb : (ps.map (imputeCostRow ps)).any (fun p => p.unit_cost = none)
    · have h2 : imputeCosts (ps.map (imputeCostRow ps)) =
          (ps.map (imputeCostRow ps)).map (imputeCostRow (ps.map (imputeCostRow ps))) := by
        unfold imputeCosts
        rw [if_pos hb]
      rw [h2]
      apply map_id_of_fixed
      intro q hq_mem
      obtain ⟨p, hp, rfl⟩ := List.mem_map.mp hq_mem
      by_cases hc : (imputeCostRow ps p).unit_cost = none
      · have hpnone : p.unit_cost = none := by
          by_contra hpn
          rw [imputeCostRow_of_some ps p hpn] at hc
          exact hpn hc
        have hmem : p.category ∈ ps.map Product.category :=
          List.mem_map.mpr ⟨p, hp, rfl⟩
        have hmed : medianRats (ratiosOf ps p.category) = none := by
          have h3 := imputeCostRow_cost_formula ps p hpnone hmem
          rw [hc] at h3
          exact Option.map_eq_none'.mp h3.symm
        have hall := (ratiosOf_eq_nil_iff ps p.category).mp
          ((medianRats_eq_none _).mp hmed)
        have hratio_qs : ratiosOf (ps.map (imputeCostRow ps)) p.category = [] := by
          rw [ratiosOf_eq_nil_iff]
          intro x hx hxc
          obtain ⟨p2, hp2, rfl⟩ := List.mem_map.mp hx
          have hcat2 : p2.category = p.category := by
            rw [← imputeCostRow_cat ps p2]
            exact hxc
          have hp2none : p2.unit_cost = none := hall p2 hp2 hcat2
          have hfix : imputeCostRow ps p2 = p2 := by
            apply imputeCostRow_self ps p2 hp2none
              (List.mem_map.mpr ⟨p2, hp2, rfl⟩)
            rw [hcat2]
            exact hmed
          rw [hfix]
          exact hp2none
        apply imputeCostRow_self _ _ hc
        · exact List.mem_map.mpr ⟨imputeCostRow ps p, hq_mem, rfl⟩
        · rw [imputeCostRow_cat ps p]
          exact (medianRats_eq_none _).mpr hratio_qs
      · exact imputeCostRow_of_some _ _ hc
    · unfold imputeCosts
      rw [if_neg hb]
  · have h1 : imputeCosts ps = ps := by
      unfold imputeCosts
      rw [if_neg ha]
    rw [h1]
    exact h1

/-- Claim C3: the full apply-fixes cleaning (city standardization,
deduplication, invalid-timestamp removal, negative-stock zeroing,
extreme-stock capping and missing-value imputation) is idempotent:
cleaning already-cleaned tables changes nothing
(src/app.py lines 3964-4030). -/
theorem claim_C3_clean_idempotent (t : Tables) : clean (clean t) = clean t := by
  simp only [clean]
  rw [Tables.mk.injEq]
  exact ⟨imputeCosts_idem _, fixCities_idem _, cleanSales_idem _, invFix_idem _⟩

/-! ## Claim C1: generator determinism and the wall clock -/

/-- Claim C1 (amended): the generator output is a function of the seeded
PRNG stream and of the current day and of nothing else — two invocations
with the same seed (hence the same stream) made at the same wall-clock day
return identical tables.  Invocations at different days differ, because
`TODAY = datetime.now()` (src/app.py line 1376) flows into the order times,
the inventory snapshot dates and the campaign dates. -/
theorem claim_C1_same_seed_same_clock (rng₁ rng₂ : Nat → Nat) (t₁ t₂ : Int)
    (hr : rng₁ = rng₂) (ht : t₁ = t₂) :
    generate_sample_data rng₁ t₁ = generate_sample_data rng₂ t₂ := by
  subst hr
  subst ht
  rfl

/-- Witness for claim C1 at a concrete stream and day. -/
theorem claim_C1_witness :
    generate_sample_data (fun _ => 0) 5 = generate_sample_data (fun _ => 0) 5 :=
  claim_C1_same_seed_same_clock (fun _ => 0) (fun _ => 0) 5 5 rfl rfl

/-- Counterexample to claim C1 as stated: two invocations with the same seed
stream on consecutive days produce different tables — the first campaign
starts on day `TODAY + offset`, and the inventory snapshot-date column
shifts with the clock as well. -/
theorem claim_C1_counterexample :
    generate_sample_data (fun _ => 0) 0 ≠ generate_sample_data (fun _ => 0) 1 ∧
    inventoryDates 0 ≠ inventoryDates 1 := by
  constructor
  · intro h
    have h2 := congrArg
      (fun g => (g.campaigns.head?).map Campaign.start_date) h
    have e0 : ((generate_sample_data (fun _ => 0) 0).campaigns.head?).map
        Campaign.start_date = some (some 0) := rfl
    have e1 : ((generate_sample_data (fun _ => 0) 1).campaigns.head?).map
        Campaign.start_date = some (some 1) := rfl
    simp only [e0, e1] at h2
    exact absurd h2 (by decide)
  · decide

end RetailApp
